import Mathlib

/-!
Shallow embedding of the entity-resolution / join pipeline of the
Rebuild repository, covering:

* `scripts/player-data/normalize-player-games.py` — joining player weekly
  stats with game-level context records;
* `scripts/importers/import-nfl-spreads.py` — only-fill merge of spreads
  from nflverse schedules;
* `scripts/importers/import-nfl-spreadspoke.py` — only-fill merge of
  spreads from the Spreadspoke CSV, including favorite-side line
  conversion.

Python `None`-able JSON fields are modelled as `Option`; Python floats in
this pipeline carry exact half-point betting lines and are modelled as
`Rat`; dicts are modelled as association lists with last-write-wins
lookup (later inserts are prepended, lookup takes the first hit).
The player-metadata and snap-count merges (direct key lookups whose
fields no verified property mentions) are omitted from the record model.
-/

namespace Rebuild

/-- Python truthiness of an optional string: `None` and `""` are falsy. -/
def strFalsy : Option String → Bool
  | none => true
  | some s => s = ""

/-- Python truthiness of an optional integer: `None` and `0` are falsy. -/
def natFalsy : Option Nat → Bool
  | none => true
  | some n => n = 0

/-- Rendering of an optional string inside a Python f-string:
`None` prints as `"None"`. -/
def pyShow : Option String → String
  | none => "None"
  | some s => s

/-- Decimal rendering of a natural, as Python `str` on an int. -/
def natStr (n : Nat) : String := toString n

/-- Python substring containment `needle in hay` on character lists. -/
def listContainsSub : List Char → List Char → Bool
  | hay, needle =>
    needle.isPrefixOf hay ||
      match hay with
      | [] => false
      | _ :: t => listContainsSub t needle

/-- Python `needle in hay` on strings. -/
def pyIn (needle hay : String) : Bool :=
  listContainsSub hay.toList needle.toList

/-- Python `str.lower` (ASCII data in this pipeline). -/
def lower (s : String) : String := String.mk (s.toList.map Char.toLower)

/-- Python `str.strip()`: drop leading and trailing whitespace. -/
def pyStrip (s : String) : String :=
  String.mk
    (((s.toList.dropWhile Char.isWhitespace).reverse.dropWhile
        Char.isWhitespace).reverse)

/-- `TEAM_ABBREV_MAP` from `normalize-player-games.py`
(also reused verbatim by `import-nfl-spreads.py`). -/
def TEAM_ABBREV_MAP : List (String × String) :=
  [("ARI", "Arizona Cardinals"),
   ("ATL", "Atlanta Falcons"),
   ("BAL", "Baltimore Ravens"),
   ("BUF", "Buffalo Bills"),
   ("CAR", "Carolina Panthers"),
   ("CHI", "Chicago Bears"),
   ("CIN", "Cincinnati Bengals"),
   ("CLE", "Cleveland Browns"),
   ("DAL", "Dallas Cowboys"),
   ("DEN", "Denver Broncos"),
   ("DET", "Detroit Lions"),
   ("GB", "Green Bay Packers"),
   ("HOU", "Houston Texans"),
   ("IND", "Indianapolis Colts"),
   ("JAX", "Jacksonville Jaguars"),
   ("KC", "Kansas City Chiefs"),
   ("LA", "Los Angeles Rams"),
   ("LAC", "Los Angeles Chargers"),
   ("LAR", "Los Angeles Rams"),
   ("LV", "Las Vegas Raiders"),
   ("MIA", "Miami Dolphins"),
   ("MIN", "Minnesota Vikings"),
   ("NE", "New England Patriots"),
   ("NO", "New Orleans Saints"),
   ("NYG", "New York Giants"),
   ("NYJ", "New York Jets"),
   ("PHI", "Philadelphia Eagles"),
   ("PIT", "Pittsburgh Steelers"),
   ("SEA", "Seattle Seahawks"),
   ("SF", "San Francisco 49ers"),
   ("TB", "Tampa Bay Buccaneers"),
   ("TEN", "Tennessee Titans"),
   ("WAS", "Washington Commanders"),
   ("OAK", "Las Vegas Raiders"),
   ("SD", "Los Angeles Chargers"),
   ("STL", "Los Angeles Rams")]

/-- `TEAM_ABBREV_MAP.get(a)`. -/
def lookupAbbrev (a : String) : Option String :=
  (TEAM_ABBREV_MAP.find? (fun p => p.1 = a)).map Prod.snd

/-- `PLAYOFF_WEEK_MAP` from `normalize-player-games.py`:
nflverse playoff week ordinal to week-string label. -/
def PLAYOFF_WEEK_MAP : List (Nat × String) :=
  [(18, "WildCard"),
   (19, "Division"),
   (20, "ConfChamp"),
   (21, "SuperBowl"),
   (22, "SuperBowl")]

/-- `PLAYOFF_WEEK_MAP.get(w)`. -/
def lookupPlayoffWeek (w : Nat) : Option String :=
  (PLAYOFF_WEEK_MAP.find? (fun p => p.1 = w)).map Prod.snd

/-- Week-string construction from `normalize-player-games.py` main loop:
`PLAYOFF_WEEK_MAP.get(week, str(week))` for season_type `"POST"`,
otherwise `str(week)`. -/
def weekStr (season_type : Option String) (week : Nat) : String :=
  if season_type = some "POST" then
    (lookupPlayoffWeek week).getD (natStr week)
  else
    natStr week

/-- `calculate_spread_result` from `import-nfl-spreads.py`:
margin = (homeScore - awayScore) + spread. -/
def calculate_spread_result (home_score away_score : Option Int)
    (spread : Option Rat) : Option String :=
  match spread, home_score, away_score with
  | some sp, some hs, some as_ =>
    let margin : Rat := ((hs : Rat) - (as_ : Rat)) + sp
    if margin > 0 then some "COVERED"
    else if margin < 0 then some "LOST"
    else some "PUSH"
  | _, _, _ => none

/-- `calculate_spread_result` from `import-nfl-spreadspoke.py`
(textually the same function, duplicated in the second importer). -/
def calculate_spread_result_spreadspoke (home_score away_score : Option Int)
    (spread : Option Rat) : Option String :=
  match spread, home_score, away_score with
  | some sp, some hs, some as_ =>
    let margin : Rat := ((hs : Rat) - (as_ : Rat)) + sp
    if margin > 0 then some "COVERED"
    else if margin < 0 then some "LOST"
    else some "PUSH"
  | _, _, _ => none

/-- `calculate_ou_result` from `import-nfl-spreads.py`. -/
def calculate_ou_result (home_score away_score : Option Int)
    (over_under : Option Rat) : Option String :=
  match over_under, home_score, away_score with
  | some ou, some hs, some as_ =>
    let total : Rat := (hs : Rat) + (as_ : Rat)
    if total > ou then some "OVER"
    else if total < ou then some "UNDER"
    else some "PUSH"
  | _, _, _ => none

/-- `calculate_ou_result` from `import-nfl-spreadspoke.py`
(textually the same function, duplicated in the second importer). -/
def calculate_ou_result_spreadspoke (home_score away_score : Option Int)
    (over_under : Option Rat) : Option String :=
  match over_under, home_score, away_score with
  | some ou, some hs, some as_ =>
    let total : Rat := (hs : Rat) + (as_ : Rat)
    if total > ou then some "OVER"
    else if total < ou then some "UNDER"
    else some "PUSH"
  | _, _, _ => none

/-- The spread-result contract as the specification words it:
null on any missing input, else COVERED / LOST / PUSH by the sign of
margin = (home_score − away_score) + home_signed_spread. -/
def specSpreadResult (home_score away_score : Option Int)
    (spread : Option Rat) : Option String :=
  match home_score, away_score, spread with
  | some hs, some as_, some sp =>
    let margin : Rat := ((hs : Rat) - (as_ : Rat)) + sp
    if 0 < margin then some "COVERED"
    else if margin < 0 then some "LOST"
    else some "PUSH"
  | _, _, _ => none

/-- A game-level context record from `nfl-games-staging.json`, with the
fields read by the three scripts.  Every field is nullable JSON. -/
structure Game where
  season : Option Nat
  week : Option String
  homeTeamCanonical : Option String
  awayTeamCanonical : Option String
  gameDate : Option String
  dayOfWeek : Option String
  homeScore : Option Int
  awayScore : Option Int
  spread : Option Rat
  overUnder : Option Rat
  spreadResult : Option String
  ouResult : Option String
  isPlayoff : Option Bool
  isPrimetime : Option Bool
  primetimeSlot : Option String
  isNeutralSite : Option Bool
  temperature : Option Rat
  windMph : Option Rat
  weatherCategory : Option String
  homeRestDays : Option Int
  awayRestDays : Option Int
  homeIsByeWeek : Option Bool
  awayIsByeWeek : Option Bool
  deriving Repr, DecidableEq

/-- A player weekly-stats row, with the identity fields the join engine
consumes (the raw performance metrics are pass-through and opaque). -/
structure Stat where
  player_id : Option String
  player_display_name : Option String
  season : Option Nat
  week : Option Nat
  season_type : Option String
  team : Option String
  opponent_team : Option String
  deriving Repr, DecidableEq

/-- The game-context enrichment block of an output player-game record
(`normalize-player-games.py` main loop), plus the resolved team names. -/
structure Joined where
  stat : Stat
  teamCanonical : String
  opponentCanonical : Option String
  gameDate : Option String
  dayOfWeek : Option String
  isHome : Option Bool
  teamScore : Option Int
  opponentScore : Option Int
  gameResult : Option String
  spread : Option Rat
  overUnder : Option Rat
  spreadResult : Option String
  ouResult : Option String
  isPlayoff : Option Bool
  isPrimetime : Option Bool
  primetimeSlot : Option String
  isNeutralSite : Option Bool
  temperature : Option Rat
  windMph : Option Rat
  weatherCategory : Option String
  restDays : Option Int
  isByeWeek : Option Bool
  deriving Repr, DecidableEq

/-- `TEAM_ABBREV_MAP.get(opp_abbrev, opp_abbrev)`: opponent abbreviation
resolution falls back to the raw abbreviation itself (and `None` stays
`None`, since `dict.get(None, None)` is `None`). -/
def resolveOpp : Option String → Option String
  | none => none
  | some a => some ((lookupAbbrev a).getD a)

/-- Primary game-lookup key `f"{season}-{week_str}-{team_canonical}"`. -/
def primaryKey (season : Nat) (weekS teamCanonical : String) : String :=
  natStr season ++ "-" ++ weekS ++ "-" ++ teamCanonical

/-- Opponent-perspective fallback key
`f"{season}-{week_str}-{opp_canonical}"` (a `None` opponent renders as
the f-string text `"None"`). -/
def fallbackKey (season : Nat) (weekS : String) (oppCanonical : Option String) :
    String :=
  natStr season ++ "-" ++ weekS ++ "-" ++ pyShow oppCanonical

/-- Confidence tier of the home/away side determination. -/
inductive SideTier where
  | exactHome
  | exactAway
  | fuzzyHome
  | fuzzyAway
  | unresolved
  deriving Repr, DecidableEq

/-- Home/away determination against a found game: exact equality on the
canonical names first, then the case-insensitive substring fallback. -/
def resolveSide (g : Game) (teamCanonical : String) : SideTier :=
  let home_team := g.homeTeamCanonical.getD ""
  let away_team := g.awayTeamCanonical.getD ""
  if teamCanonical = home_team then .exactHome
  else if teamCanonical = away_team then .exactAway
  else if pyIn (lower teamCanonical) (lower home_team) then .fuzzyHome
  else if pyIn (lower teamCanonical) (lower away_team) then .fuzzyAway
  else .unresolved

/-- The `is_home` value a side tier yields. -/
def tierIsHome : SideTier → Option Bool
  | .exactHome => some true
  | .exactAway => some false
  | .fuzzyHome => some true
  | .fuzzyAway => some false
  | .unresolved => none

/-- The W/L/T result from the player's team perspective, as the matched
branch computes it from the perspective-adjusted scores. -/
def gameResultOf (teamScore oppScore : Option Int) : Option String :=
  match teamScore, oppScore with
  | some ts, some os_ =>
    if ts > os_ then some "W" else if ts < os_ then some "L" else some "T"
  | _, _ => none

/-- Enrichment of an output record from the single matched game `g` at
perspective `is_home`, exactly the matched branch of the main loop. -/
def enrichFrom (st : Stat) (teamCanonical : String)
    (oppCanonical : Option String) (g : Game) (is_home : Bool) : Joined :=
  let teamScore := if is_home then g.homeScore else g.awayScore
  let oppScore := if is_home then g.awayScore else g.homeScore
  { stat := st
    teamCanonical := teamCanonical
    opponentCanonical := oppCanonical
    gameDate := g.gameDate
    dayOfWeek := g.dayOfWeek
    isHome := some is_home
    teamScore := teamScore
    opponentScore := oppScore
    gameResult := gameResultOf teamScore oppScore
    spread :=
      match g.spread with
      | some raw => some (if is_home then raw else -raw)
      | none => none
    overUnder := g.overUnder
    spreadResult := g.spreadResult
    ouResult := g.ouResult
    isPlayoff := some (g.isPlayoff.getD false)
    isPrimetime := some (g.isPrimetime.getD false)
    primetimeSlot := g.primetimeSlot
    isNeutralSite := some (g.isNeutralSite.getD false)
    temperature := g.temperature
    windMph := g.windMph
    weatherCategory := g.weatherCategory
    restDays := if is_home then g.homeRestDays else g.awayRestDays
    isByeWeek := if is_home then g.homeIsByeWeek else g.awayIsByeWeek }

/-- The unmatched branch of the main loop: the row is still included,
with no game context; `isPlayoff` is derived from the row's own
`season_type`, everything else is set to `None`. -/
def nullEnriched (st : Stat) (teamCanonical : String)
    (oppCanonical : Option String) : Joined :=
  { stat := st
    teamCanonical := teamCanonical
    opponentCanonical := oppCanonical
    gameDate := none
    dayOfWeek := none
    isHome := none
    teamScore := none
    opponentScore := none
    gameResult := none
    spread := none
    overUnder := none
    spreadResult := none
    ouResult := none
    isPlayoff := some (st.season_type == some "POST")
    isPrimetime := none
    primetimeSlot := none
    isNeutralSite := none
    temperature := none
    windMph := none
    weatherCategory := none
    restDays := none
    isByeWeek := none }

/-- Per-row outcome of the normalization main loop: `skip` is a
`continue` (the row is dropped and counted unmatched), `hit` is an
emitted row counted matched, `miss` is an emitted row counted
unmatched. -/
inductive StepResult where
  | skip
  | hit (j : Joined)
  | miss (j : Joined)
  deriving Repr, DecidableEq

/-- The primary join key of a statistical row, given its resolved
canonical team name. -/
def statPrimaryKey (st : Stat) (team_canonical : String) : String :=
  primaryKey (st.season.getD 0) (weekStr st.season_type (st.week.getD 0))
    team_canonical

/-- The opponent-perspective fallback join key of a statistical row. -/
def statFallbackKey (st : Stat) : String :=
  fallbackKey (st.season.getD 0) (weekStr st.season_type (st.week.getD 0))
    (resolveOpp st.opponent_team)

/-- The two-probe game lookup: primary key first, opponent-perspective
fallback key second. -/
def lookupGame (idx : String → Option Game) (st : Stat)
    (team_canonical : String) : Option Game :=
  match idx (statPrimaryKey st team_canonical) with
  | some g => some g
  | none => idx (statFallbackKey st)

/-- One iteration of the `normalize-player-games.py` main loop over an
arbitrary game index `idx` (the built dict, as a lookup function). -/
def processStat (idx : String → Option Game) (st : Stat) : StepResult :=
  if strFalsy st.player_id || natFalsy st.season || st.week.isNone ||
      strFalsy st.team then .skip
  else
    match lookupAbbrev (st.team.getD "") with
    | none => .skip
    | some team_canonical =>
      let opp_canonical := resolveOpp st.opponent_team
      match lookupGame idx st team_canonical with
      | some g =>
        match tierIsHome (resolveSide g team_canonical) with
        | some is_home =>
          .hit (enrichFrom st team_canonical opp_canonical g is_home)
        | none => .miss (nullEnriched st team_canonical opp_canonical)
      | none => .miss (nullEnriched st team_canonical opp_canonical)

/-- The record a step emits, if any: `skip` emits nothing, `hit` and
`miss` both emit their row. -/
def emittedOf : StepResult → Option Joined
  | .skip => none
  | .hit j => some j
  | .miss j => some j

/-- Whether a step was a `continue` (row dropped). -/
def isSkip : StepResult → Bool
  | .skip => true
  | _ => false

/-- Whether a step was counted in the matched counter. -/
def isHit : StepResult → Bool
  | .hit _ => true
  | _ => false

/-- The reconciliation counters the script accumulates: `matched`,
`unmatched`, and the bounded list of unmatched example lines.  (These
three are all it tracks; there is no further counter.) -/
structure Report where
  matched : Nat
  unmatched : Nat
  unmatchedExamples : List String
  deriving Repr, DecidableEq

/-- The f-string diagnostic line appended for an unmatched emitted row. -/
def unmatchedExample (st : Stat) : String :=
  "  " ++ pyShow st.player_display_name ++ " (" ++ st.team.getD "" ++
    ") season=" ++ natStr (st.season.getD 0) ++ " week=" ++
    natStr (st.week.getD 0) ++ " type=" ++ pyShow st.season_type

/-- Accumulator step: output list plus counters, following the loop. -/
def stepAcc (idx : String → Option Game) (acc : List Joined × Report)
    (st : Stat) : List Joined × Report :=
  match processStat idx st with
  | .skip => (acc.1, { acc.2 with unmatched := acc.2.unmatched + 1 })
  | .hit j => (acc.1 ++ [j], { acc.2 with matched := acc.2.matched + 1 })
  | .miss j =>
    (acc.1 ++ [j],
     { matched := acc.2.matched
       unmatched := acc.2.unmatched + 1
       unmatchedExamples :=
         if acc.2.unmatchedExamples.length < 10 then
           acc.2.unmatchedExamples ++ [unmatchedExample st]
         else acc.2.unmatchedExamples })

/-- The whole normalization pass: results list and final report. -/
def runNormalize (idx : String → Option Game) (stats : List Stat) :
    List Joined × Report :=
  stats.foldl (stepAcc idx) ([], ⟨0, 0, []⟩)

/-- The game-index build: each game passing the guard is inserted under
its home-name key and its away-name key; later inserts win (modelled by
prepending and first-hit lookup). -/
def gameIndexEntries (games : List Game) : List (String × Game) :=
  games.foldl (fun m g =>
    if natFalsy g.season || strFalsy g.homeTeamCanonical ||
        strFalsy g.awayTeamCanonical then m
    else
      let s := natStr (g.season.getD 0)
      let w := pyShow g.week
      let home := g.homeTeamCanonical.getD ""
      let away := g.awayTeamCanonical.getD ""
      ((s ++ "-" ++ w ++ "-" ++ away), g) ::
        ((s ++ "-" ++ w ++ "-" ++ home), g) :: m) []

/-- `game_by_key.get(k)` over the built index. -/
def buildGameIndex (games : List Game) (k : String) : Option Game :=
  ((gameIndexEntries games).find? (fun p => p.1 = k)).map Prod.snd

/-- `SPREADSPOKE_ABBREV_MAP` from `import-nfl-spreadspoke.py`. -/
def SPREADSPOKE_ABBREV_MAP : List (String × String) :=
  [("ARI", "Arizona Cardinals"),
   ("ATL", "Atlanta Falcons"),
   ("BAL", "Baltimore Ravens"),
   ("BUF", "Buffalo Bills"),
   ("CAR", "Carolina Panthers"),
   ("CHI", "Chicago Bears"),
   ("CIN", "Cincinnati Bengals"),
   ("CLE", "Cleveland Browns"),
   ("DAL", "Dallas Cowboys"),
   ("DEN", "Denver Broncos"),
   ("DET", "Detroit Lions"),
   ("GB", "Green Bay Packers"),
   ("IND", "Indianapolis Colts"),
   ("JAX", "Jacksonville Jaguars"),
   ("KC", "Kansas City Chiefs"),
   ("LAC", "Los Angeles Chargers"),
   ("LAR", "Los Angeles Rams"),
   ("MIA", "Miami Dolphins"),
   ("MIN", "Minnesota Vikings"),
   ("NE", "New England Patriots"),
   ("NO", "New Orleans Saints"),
   ("NYG", "New York Giants"),
   ("NYJ", "New York Jets"),
   ("OAK", "Las Vegas Raiders"),
   ("PHI", "Philadelphia Eagles"),
   ("PIT", "Pittsburgh Steelers"),
   ("SD", "Los Angeles Chargers"),
   ("SEA", "Seattle Seahawks"),
   ("SF", "San Francisco 49ers"),
   ("STL", "Los Angeles Rams"),
   ("TB", "Tampa Bay Buccaneers"),
   ("TEN", "Tennessee Titans"),
   ("WAS", "Washington Commanders")]

/-- `SPREADSPOKE_ABBREV_MAP.get(a)`. -/
def lookupSpreadspokeAbbrev (a : String) : Option String :=
  (SPREADSPOKE_ABBREV_MAP.find? (fun p => p.1 = a)).map Prod.snd

/-- `SPREADSPOKE_NAME_TO_CANONICAL` from `import-nfl-spreadspoke.py`:
full (current and historical) team names to canonical names. -/
def SPREADSPOKE_NAME_TO_CANONICAL : List (String × String) :=
  [("Arizona Cardinals", "Arizona Cardinals"),
   ("Atlanta Falcons", "Atlanta Falcons"),
   ("Baltimore Ravens", "Baltimore Ravens"),
   ("Buffalo Bills", "Buffalo Bills"),
   ("Carolina Panthers", "Carolina Panthers"),
   ("Chicago Bears", "Chicago Bears"),
   ("Cincinnati Bengals", "Cincinnati Bengals"),
   ("Cleveland Browns", "Cleveland Browns"),
   ("Dallas Cowboys", "Dallas Cowboys"),
   ("Denver Broncos", "Denver Broncos"),
   ("Detroit Lions", "Detroit Lions"),
   ("Green Bay Packers", "Green Bay Packers"),
   ("Houston Texans", "Houston Texans"),
   ("Indianapolis Colts", "Indianapolis Colts"),
   ("Jacksonville Jaguars", "Jacksonville Jaguars"),
   ("Kansas City Chiefs", "Kansas City Chiefs"),
   ("Los Angeles Rams", "Los Angeles Rams"),
   ("Los Angeles Chargers", "Los Angeles Chargers"),
   ("Las Vegas Raiders", "Las Vegas Raiders"),
   ("Miami Dolphins", "Miami Dolphins"),
   ("Minnesota Vikings", "Minnesota Vikings"),
   ("New England Patriots", "New England Patriots"),
   ("New Orleans Saints", "New Orleans Saints"),
   ("New York Giants", "New York Giants"),
   ("New York Jets", "New York Jets"),
   ("Philadelphia Eagles", "Philadelphia Eagles"),
   ("Pittsburgh Steelers", "Pittsburgh Steelers"),
   ("San Francisco 49ers", "San Francisco 49ers"),
   ("Seattle Seahawks", "Seattle Seahawks"),
   ("Tampa Bay Buccaneers", "Tampa Bay Buccaneers"),
   ("Tennessee Titans", "Tennessee Titans"),
   ("Washington Commanders", "Washington Commanders"),
   ("Baltimore Colts", "Indianapolis Colts"),
   ("Houston Oilers", "Tennessee Titans"),
   ("Los Angeles Raiders", "Las Vegas Raiders"),
   ("Oakland Raiders", "Las Vegas Raiders"),
   ("Phoenix Cardinals", "Arizona Cardinals"),
   ("San Diego Chargers", "Los Angeles Chargers"),
   ("St. Louis Cardinals", "Arizona Cardinals"),
   ("St. Louis Rams", "Los Angeles Rams"),
   ("Tennessee Oilers", "Tennessee Titans"),
   ("Washington Redskins", "Washington Commanders")]

/-- `SPREADSPOKE_NAME_TO_CANONICAL.get(n)`. -/
def lookupNameToCanonical (n : String) : Option String :=
  (SPREADSPOKE_NAME_TO_CANONICAL.find? (fun p => p.1 = n)).map Prod.snd

/-- Split a character list at every occurrence of `c`, like Python
`str.split` with a one-character separator. -/
def splitOnChar (c : Char) : List Char → List (List Char)
  | [] => [[]]
  | x :: xs =>
    if x = c then [] :: splitOnChar c xs
    else
      match splitOnChar c xs with
      | [] => [[x]]
      | h :: t => (x :: h) :: t

/-- A character list made of one or more decimal digits. -/
def allDigits (s : List Char) : Bool :=
  !s.isEmpty && s.all Char.isDigit

/-- Decimal value of a digit list. -/
def digitsVal (s : List Char) : Nat :=
  s.foldl (fun n c => n * 10 + (c.toNat - 48)) 0

/-- Gregorian leap-year rule used by `datetime`. -/
def isLeap (y : Nat) : Bool :=
  (y % 4 = 0 && y % 100 ≠ 0) || y % 400 = 0

/-- Day count of a month, as `datetime` validates it. -/
def daysInMonth (y m : Nat) : Nat :=
  if m = 2 then (if isLeap y then 29 else 28)
  else if m = 4 || m = 6 || m = 9 || m = 11 then 30
  else 31

/-- Left-pad a decimal rendering with zeros. -/
def padZeros (width n : Nat) : String :=
  let s := natStr n
  String.mk (List.replicate (width - s.length) '0') ++ s

/-- `datetime.strptime(s, "%m/%d/%Y").strftime("%Y-%m-%d")` with a
`None` result standing for the caught `ValueError`. -/
def convertDate (s : String) : Option String :=
  match splitOnChar '/' s.toList with
  | [ms, ds, ys] =>
    if allDigits ms && allDigits ds && allDigits ys then
      let m := digitsVal ms
      let d := digitsVal ds
      let y := digitsVal ys
      if 1 ≤ m && m ≤ 12 && 1 ≤ d && d ≤ daysInMonth y m &&
          1 ≤ y && y ≤ 9999 then
        some (padZeros 4 y ++ "-" ++ padZeros 2 m ++ "-" ++ padZeros 2 d)
      else none
    else none
  | _ => none

/-- A Spreadspoke CSV row after the `float` conversions the loop
performs (rows are pre-filtered to a non-empty `spread_favorite`;
a blank `over_under_line` is `none`). -/
structure SSRow where
  schedule_season : Nat
  schedule_date : String
  team_home : String
  team_away : String
  team_favorite_id : String
  spread_favorite : Rat
  over_under_line : Option Rat
  deriving Repr, DecidableEq

/-- A Spreadspoke index value: home-perspective spread and total. -/
structure SSEntry where
  spread : Rat
  over_under : Option Rat
  deriving Repr, DecidableEq

/-- Index contribution of one Spreadspoke row — the body of the
index-building loop of `import-nfl-spreadspoke.py`, `none` for every
`continue` path (unknown home name, bad date, unknown favorite
abbreviation, or a favorite matching neither side). -/
def spreadspokeRowEntry (r : SSRow) : Option ((String × String) × SSEntry) :=
  match lookupNameToCanonical r.team_home with
  | none => none
  | some home_canonical =>
    match convertDate r.schedule_date with
    | none => none
    | some date_str =>
      let fav_id := pyStrip r.team_favorite_id
      if fav_id = "PICK" || fav_id = "" then
        some ((date_str, home_canonical), ⟨0, r.over_under_line⟩)
      else
        match lookupSpreadspokeAbbrev fav_id with
        | none => none
        | some fav_canonical =>
          let away_canonical := lookupNameToCanonical r.team_away
          if fav_canonical = home_canonical then
            some ((date_str, home_canonical),
              ⟨-r.spread_favorite, r.over_under_line⟩)
          else if some fav_canonical = away_canonical then
            some ((date_str, home_canonical),
              ⟨r.spread_favorite, r.over_under_line⟩)
          else
            let home_hist := (lookupNameToCanonical r.team_home).getD r.team_home
            let away_hist := (lookupNameToCanonical r.team_away).getD r.team_away
            if fav_canonical = home_hist then
              some ((date_str, home_canonical),
                ⟨-r.spread_favorite, r.over_under_line⟩)
            else if fav_canonical = away_hist then
              some ((date_str, home_canonical),
                ⟨r.spread_favorite, r.over_under_line⟩)
            else none

/-- The Spreadspoke index built from all rows in order; later rows
overwrite earlier ones on the same `(date, home)` key. -/
def spreadspokeIndexEntries (rows : List SSRow) :
    List ((String × String) × SSEntry) :=
  rows.foldl (fun m r =>
    match spreadspokeRowEntry r with
    | some e => e :: m
    | none => m) []

/-- `ss_index.get(k)` over the built Spreadspoke index. -/
def spreadspokeIndex (rows : List SSRow) (k : String × String) :
    Option SSEntry :=
  ((spreadspokeIndexEntries rows).find? (fun p => p.1 = k)).map Prod.snd

/-- Which counter a fill-loop iteration bumps (`skippedKey` is the
guard `continue`, which bumps none). -/
inductive FillOutcome where
  | alreadyHas
  | skippedKey
  | filled
  | notFound
  deriving Repr, DecidableEq

/-- One iteration of the Spreadspoke fill loop on one game: a game with
a non-null `spread` is skipped whole; otherwise a `(gameDate, home)`
index hit assigns `spread`, `overUnder`, `spreadResult` and `ouResult`
from the matched entry. -/
def spreadspokeFillStep (idx : String × String → Option SSEntry)
    (g : Game) : Game × FillOutcome :=
  if g.spread.isSome then (g, .alreadyHas)
  else
    let home := g.homeTeamCanonical.getD ""
    let date_str := g.gameDate.getD ""
    if home = "" || date_str = "" then (g, .skippedKey)
    else
      match idx (date_str, home) with
      | some e =>
        ({ g with
            spread := some e.spread
            overUnder := e.over_under
            spreadResult := calculate_spread_result_spreadspoke
              g.homeScore g.awayScore (some e.spread)
            ouResult := calculate_ou_result_spreadspoke
              g.homeScore g.awayScore e.over_under }, .filled)
      | none => (g, .notFound)

/-- The counters the fill loops accumulate (plus the per-season
breakdown of filled games, keyed by `game.get("season", "?")`). -/
structure FillCounters where
  filled : Nat
  notFound : Nat
  alreadyHas : Nat
  bySeason : List (Option Nat × Nat)
  deriving Repr, DecidableEq

/-- `by_season[s] = by_season.get(s, 0) + 1` on an insertion-ordered
association list. -/
def bumpSeason (m : List (Option Nat × Nat)) (k : Option Nat) :
    List (Option Nat × Nat) :=
  match m with
  | [] => [(k, 1)]
  | (k', n) :: t =>
    if k' = k then (k', n + 1) :: t else (k', n) :: bumpSeason t k

/-- Fold one fill-loop iteration into the accumulated output list and
counters. -/
def fillAcc (idx : String × String → Option SSEntry)
    (acc : List Game × FillCounters) (g : Game) : List Game × FillCounters :=
  match spreadspokeFillStep idx g with
  | (g', .alreadyHas) =>
    (acc.1 ++ [g'], { acc.2 with alreadyHas := acc.2.alreadyHas + 1 })
  | (g', .skippedKey) => (acc.1 ++ [g'], acc.2)
  | (g', .filled) =>
    (acc.1 ++ [g'],
     { acc.2 with
        filled := acc.2.filled + 1
        bySeason := bumpSeason acc.2.bySeason g'.season })
  | (g', .notFound) =>
    (acc.1 ++ [g'], { acc.2 with notFound := acc.2.notFound + 1 })

/-- The whole `import-nfl-spreadspoke.py` merge pass: index the rows,
then fill every game, returning the updated games and the counters. -/
def runSpreadspoke (rows : List SSRow) (games : List Game) :
    List Game × FillCounters :=
  games.foldl (fillAcc (spreadspokeIndex rows)) ([], ⟨0, 0, 0, []⟩)

/-- `GAME_TYPE_MAP` from `import-nfl-spreads.py`. -/
def GAME_TYPE_MAP : List (String × String) :=
  [("WC", "WildCard"),
   ("DIV", "Division"),
   ("CON", "ConfChamp"),
   ("SB", "SuperBowl")]

/-- `GAME_TYPE_MAP.get(t)` membership lookup. -/
def lookupGameType (t : String) : Option String :=
  (GAME_TYPE_MAP.find? (fun p => p.1 = t)).map Prod.snd

/-- An nflverse schedule row, with the fields the importer reads. -/
structure SchedRow where
  season : Nat
  game_type : String
  week : Nat
  home_team : String
  spread_line : Option Rat
  total_line : Option Rat
  deriving Repr, DecidableEq

/-- An nflverse index value: raw spread and total lines. -/
structure NVEntry where
  spread_line : Option Rat
  total_line : Option Rat
  deriving Repr, DecidableEq

/-- Index contribution of one nflverse schedule row — `none` on the
`continue` paths (unknown home abbreviation, or a game type neither
`"REG"` nor in `GAME_TYPE_MAP`). -/
def nflverseRowEntry (r : SchedRow) :
    Option ((Nat × String × String) × NVEntry) :=
  match lookupAbbrev r.home_team with
  | none => none
  | some home_canonical =>
    let weekS :=
      if r.game_type = "REG" then some (natStr r.week)
      else lookupGameType r.game_type
    match weekS with
    | none => none
    | some w =>
      some ((r.season, w, home_canonical), ⟨r.spread_line, r.total_line⟩)

/-- One iteration of the `import-nfl-spreads.py` fill loop on one game:
skip whole when `spread` is non-null; on an index hit with a non-null
`spread_line`, assign `spread`, `overUnder`, `spreadResult`, `ouResult`
from the entry. -/
def nflverseFillStep (idx : Nat × String × String → Option NVEntry)
    (g : Game) : Game × FillOutcome :=
  if g.spread.isSome then (g, .alreadyHas)
  else
    let week := g.week.getD ""
    let home := g.homeTeamCanonical.getD ""
    if natFalsy g.season || week = "" || home = "" then (g, .skippedKey)
    else
      match idx (g.season.getD 0, week, home) with
      | some e =>
        match e.spread_line with
        | some sl =>
          ({ g with
              spread := some sl
              overUnder := e.total_line
              spreadResult := calculate_spread_result
                g.homeScore g.awayScore (some sl)
              ouResult := calculate_ou_result
                g.homeScore g.awayScore e.total_line }, .filled)
        | none => (g, .notFound)
      | none => (g, .notFound)

/-- A favorite side of a betting line, as the specification speaks of
it when stating the round-trip property. -/
inductive FavSide where
  | home
  | away
  | pick
  deriving Repr, DecidableEq

/-- Modelled from the spec: recomputing "who is favored" from the sign
of a home-perspective signed spread — positive means home favored,
negative means away favored, zero is the pick/even line. -/
def specFavoredFromSign (s : Rat) : FavSide :=
  if 0 < s then .home
  else if s < 0 then .away
  else .pick

/-- All game-context enrichment fields of a joined record are drawn
from the single context record `g`, at one consistent home/away
perspective. -/
def EnrichedFrom (j : Joined) (g : Game) : Prop :=
  ∃ b : Bool,
    j.isHome = some b ∧
    j.gameDate = g.gameDate ∧
    j.dayOfWeek = g.dayOfWeek ∧
    j.teamScore = (if b then g.homeScore else g.awayScore) ∧
    j.opponentScore = (if b then g.awayScore else g.homeScore) ∧
    j.gameResult = gameResultOf j.teamScore j.opponentScore ∧
    j.spread = g.spread.map (fun r => if b then r else -r) ∧
    j.overUnder = g.overUnder ∧
    j.spreadResult = g.spreadResult ∧
    j.ouResult = g.ouResult ∧
    j.isPlayoff = some (g.isPlayoff.getD false) ∧
    j.isPrimetime = some (g.isPrimetime.getD false) ∧
    j.primetimeSlot = g.primetimeSlot ∧
    j.isNeutralSite = some (g.isNeutralSite.getD false) ∧
    j.temperature = g.temperature ∧
    j.windMph = g.windMph ∧
    j.weatherCategory = g.weatherCategory ∧
    j.restDays = (if b then g.homeRestDays else g.awayRestDays) ∧
    j.isByeWeek = (if b then g.homeIsByeWeek else g.awayIsByeWeek)

/-- Every game-context enrichment field of a joined record is null —
except `isPlayoff`, which the unmatched branch derives from the row's
own `season_type`. -/
def NullEnrichedExceptPlayoff (j : Joined) : Prop :=
  j.gameDate = none ∧ j.dayOfWeek = none ∧ j.isHome = none ∧
  j.teamScore = none ∧ j.opponentScore = none ∧ j.gameResult = none ∧
  j.spread = none ∧ j.overUnder = none ∧ j.spreadResult = none ∧
  j.ouResult = none ∧ j.isPrimetime = none ∧ j.primetimeSlot = none ∧
  j.isNeutralSite = none ∧ j.temperature = none ∧ j.windMph = none ∧
  j.weatherCategory = none ∧ j.restDays = none ∧ j.isByeWeek = none

/-- The nflverse schedule index built from all rows in order. -/
def nflverseIndexEntries (rows : List SchedRow) :
    List ((Nat × String × String) × NVEntry) :=
  rows.foldl (fun m r =>
    match nflverseRowEntry r with
    | some e => e :: m
    | none => m) []

/-- `nflverse_index.get(k)` over the built index. -/
def nflverseIndex (rows : List SchedRow) (k : Nat × String × String) :
    Option NVEntry :=
  ((nflverseIndexEntries rows).find? (fun p => p.1 = k)).map Prod.snd

/-! Concrete fixtures, used by the counterexamples and witnesses. -/

/-- A game record with every field null. -/
def emptyGame : Game :=
  { season := none, week := none, homeTeamCanonical := none,
    awayTeamCanonical := none, gameDate := none, dayOfWeek := none,
    homeScore := none, awayScore := none, spread := none,
    overUnder := none, spreadResult := none, ouResult := none,
    isPlayoff := none, isPrimetime := none, primetimeSlot := none,
    isNeutralSite := none, temperature := none, windMph := none,
    weatherCategory := none, homeRestDays := none, awayRestDays := none,
    homeIsByeWeek := none, awayIsByeWeek := none }

/-- A stats row whose team abbreviation has no alias-table entry. -/
def stUnknownTeam : Stat :=
  { player_id := some "00-0099999", player_display_name := some "Test Player",
    season := some 2020, week := some 3, season_type := some "REG",
    team := some "XXX", opponent_team := some "BUF" }

/-- A game whose stored home name only contains the canonical team name
as a substring, forcing the fuzzy side determination. -/
def gFuzzyHome : Game :=
  { emptyGame with
      season := some 2020, week := some "5",
      homeTeamCanonical := some "The Los Angeles Rams",
      awayTeamCanonical := some "Buffalo Bills" }

/-- The same game with the exact canonical home name. -/
def gExactHome : Game :=
  { emptyGame with
      season := some 2020, week := some "5",
      homeTeamCanonical := some "Los Angeles Rams",
      awayTeamCanonical := some "Buffalo Bills" }

/-- A Rams stats row joining against the fixtures above. -/
def stRams : Stat :=
  { player_id := some "00-0012345", player_display_name := some "Rams Player",
    season := some 2020, week := some 5, season_type := some "REG",
    team := some "LAR", opponent_team := some "BUF" }

/-- A postseason stats row that will find no game in an empty index. -/
def stPost : Stat :=
  { player_id := some "00-0055555",
    player_display_name := some "Playoff Player",
    season := some 2021, week := some 19, season_type := some "POST",
    team := some "KC", opponent_team := some "BUF" }

/-- A stats row whose opponent abbreviation has no alias-table entry
but whose own team abbreviation does. -/
def stUnknownOpp : Stat :=
  { player_id := some "00-0077777", player_display_name := some "KC Player",
    season := some 2020, week := some 4, season_type := some "REG",
    team := some "KC", opponent_team := some "ZZZ" }

/-- A Spreadspoke row with the home side favored by 3. -/
def rHomeFav : SSRow :=
  { schedule_season := 1980, schedule_date := "10/12/1980",
    team_home := "Miami Dolphins", team_away := "Buffalo Bills",
    team_favorite_id := "MIA", spread_favorite := -3,
    over_under_line := some 40 }

/-- A game missing its spread but already carrying a total and a total
result. -/
def gPartial : Game :=
  { emptyGame with
      season := some 1980, week := some "7",
      homeTeamCanonical := some "Miami Dolphins",
      awayTeamCanonical := some "Buffalo Bills",
      gameDate := some "1980-10-12",
      homeScore := some 24, awayScore := some 20,
      overUnder := some 50, ouResult := some "UNDER" }

/-- An nflverse schedule row for the nflverse variant of the fixture. -/
def rSched : SchedRow :=
  { season := 2020, game_type := "REG", week := 5, home_team := "KC",
    spread_line := some 3, total_line := some 40 }

/-- The nflverse counterpart of `gPartial`. -/
def gPartialNV : Game :=
  { emptyGame with
      season := some 2020, week := some "5",
      homeTeamCanonical := some "Kansas City Chiefs",
      awayTeamCanonical := some "Buffalo Bills",
      gameDate := some "2020-10-11",
      homeScore := some 24, awayScore := some 20,
      overUnder := some 50, ouResult := some "UNDER" }

/-- A Spreadspoke row whose favorite id resolves to neither the home
nor the away franchise of its game. -/
def rAmbiguous : SSRow :=
  { schedule_season := 1995, schedule_date := "01/15/1995",
    team_home := "Miami Dolphins", team_away := "Buffalo Bills",
    team_favorite_id := "DAL", spread_favorite := -3,
    over_under_line := some 40 }

/-- The game the ambiguous row would have enriched. -/
def gUnfilled : Game :=
  { emptyGame with
      season := some 1995, week := some "WildCard",
      homeTeamCanonical := some "Miami Dolphins",
      awayTeamCanonical := some "Buffalo Bills",
      gameDate := some "1995-01-15" }

/-- A Spreadspoke row naming a favorite with a zero magnitude. -/
def rZeroFav : SSRow :=
  { schedule_season := 1985, schedule_date := "11/03/1985",
    team_home := "Miami Dolphins", team_away := "Buffalo Bills",
    team_favorite_id := "MIA", spread_favorite := 0,
    over_under_line := none }

/-- A Spreadspoke pick-em row carrying a nonzero magnitude. -/
def rPick : SSRow :=
  { schedule_season := 1990, schedule_date := "09/09/1990",
    team_home := "Miami Dolphins", team_away := "Buffalo Bills",
    team_favorite_id := "PICK", spread_favorite := -7,
    over_under_line := some 38 }

/-! Theorems. -/

theorem stepAcc_fst (idx : String → Option Game)
    (acc : List Joined × Report) (st : Stat) :
    (stepAcc idx acc st).1 = acc.1 ++ (emittedOf (processStat idx st)).toList := by
  cases h : processStat idx st <;> simp [stepAcc, emittedOf, h]

theorem stepAcc_matched (idx : String → Option Game)
    (acc : List Joined × Report) (st : Stat) :
    (stepAcc idx acc st).2.matched
      = acc.2.matched + (if isHit (processStat idx st) then 1 else 0) := by
  cases h : processStat idx st <;> simp [stepAcc, isHit, h]

theorem stepAcc_unmatched (idx : String → Option Game)
    (acc : List Joined × Report) (st : Stat) :
    (stepAcc idx acc st).2.unmatched
      = acc.2.unmatched + (if isHit (processStat idx st) then 0 else 1) := by
  cases h : processStat idx st <;> simp [stepAcc, isHit, h]

theorem runNorm_fold_fst (idx : String → Option Game) :
    ∀ (stats : List Stat) (acc : List Joined × Report),
      (stats.foldl (stepAcc idx) acc).1
        = acc.1 ++ stats.filterMap (fun st => emittedOf (processStat idx st))
  | [], acc => by simp
  | st :: stats, acc => by
    rw [List.foldl_cons, runNorm_fold_fst idx stats, stepAcc_fst]
    cases h : emittedOf (processStat idx st) <;>
      simp [h, List.filterMap_cons]

theorem runNorm_fold_matched (idx : String → Option Game) :
    ∀ (stats : List Stat) (acc : List Joined × Report),
      (stats.foldl (stepAcc idx) acc).2.matched
        = acc.2.matched + stats.countP (fun st => isHit (processStat idx st))
  | [], acc => by simp
  | st :: stats, acc => by
    rw [List.foldl_cons, runNorm_fold_matched idx stats, stepAcc_matched,
      List.countP_cons]
    by_cases h : isHit (processStat idx st) <;> (simp [h]; try omega)

theorem runNorm_fold_unmatched (idx : String → Option Game) :
    ∀ (stats : List Stat) (acc : List Joined × Report),
      (stats.foldl (stepAcc idx) acc).2.unmatched
        = acc.2.unmatched
            + stats.countP (fun st => !(isHit (processStat idx st)))
  | [], acc => by simp
  | st :: stats, acc => by
    rw [List.foldl_cons, runNorm_fold_unmatched idx stats, stepAcc_unmatched,
      List.countP_cons]
    by_cases h : isHit (processStat idx st) <;> (simp [h]; try omega)

theorem countP_bool_split {α : Type} (p : α → Bool) :
    ∀ l : List α, l.countP p + l.countP (fun a => !(p a)) = l.length
  | [] => by simp
  | a :: l => by
    have := countP_bool_split p l
    by_cases h : p a <;> simp [List.countP_cons, h] <;> omega

theorem emitted_length (idx : String → Option Game) :
    ∀ stats : List Stat,
      (stats.filterMap (fun st => emittedOf (processStat idx st))).length
        + stats.countP (fun st => isSkip (processStat idx st)) = stats.length
  | [] => by simp
  | st :: stats => by
    have ih := emitted_length idx stats
    cases h : processStat idx st <;>
      simp [List.filterMap_cons, List.countP_cons, emittedOf, isSkip, h]
        at ih ⊢ <;>
      omega

/-- C1 counterexample: a statistical record whose team code has no
alias-table entry is NOT emitted — the loop `continue`s, so the run over
one such record produces an empty output list (count 0 ≠ input count 1)
while incrementing the unmatched counter once. -/
theorem C1_counterexample_unknown_team_dropped :
    processStat (fun _ => none) stUnknownTeam = .skip ∧
    runNormalize (fun _ => none) [stUnknownTeam]
      = ([], { matched := 0, unmatched := 1, unmatchedExamples := [] }) ∧
    (runNormalize (fun _ => none) [stUnknownTeam]).1.length
      ≠ [stUnknownTeam].length := by
  refine ⟨by decide, by decide, by decide⟩

/-- C1 amended: the join emits exactly one output record per input
record that passes the identity guard and the team-alias lookup, in
input order; every input increments exactly one of the matched or
unmatched counters (so matched + unmatched = input count); and the
output count equals the input count minus the records dropped by the
guard or alias miss (`skip` steps) — not the full input count. -/
theorem C1_amended_emission (idx : String → Option Game)
    (stats : List Stat) :
    (runNormalize idx stats).1
        = stats.filterMap (fun st => emittedOf (processStat idx st)) ∧
    (runNormalize idx stats).2.matched + (runNormalize idx stats).2.unmatched
        = stats.length ∧
    (runNormalize idx stats).1.length
        + stats.countP (fun st => isSkip (processStat idx st))
        = stats.length := by
  have h1 : (runNormalize idx stats).1
      = stats.filterMap (fun st => emittedOf (processStat idx st)) := by
    simpa [runNormalize] using
      runNorm_fold_fst idx stats ([], ⟨0, 0, []⟩)
  refine ⟨h1, ?_, ?_⟩
  · have hm := runNorm_fold_matched idx stats ([], ⟨0, 0, []⟩)
    have hu := runNorm_fold_unmatched idx stats ([], ⟨0, 0, []⟩)
    have hc := countP_bool_split (fun st => isHit (processStat idx st)) stats
    simp only [runNormalize] at hm hu ⊢
    omega
  · rw [h1]
    exact emitted_length idx stats

/-- C5 counterexample: a record resolved via the case-insensitive
substring containment fallback (the side determination is `fuzzyHome`,
not an exact-name match) is counted in the same `matched` counter as an
exactly-resolved record, and the two runs produce identical reports —
the report has no fuzzy-matched counter at all. -/
theorem C5_counterexample_no_fuzzy_counter :
    resolveSide gFuzzyHome "Los Angeles Rams" = .fuzzyHome ∧
    (runNormalize (buildGameIndex [gFuzzyHome]) [stRams]).2
      = { matched := 1, unmatched := 0, unmatchedExamples := [] } ∧
    (runNormalize (buildGameIndex [gFuzzyHome]) [stRams]).2
      = (runNormalize (buildGameIndex [gExactHome]) [stRams]).2 := by
  refine ⟨by decide, by decide, by decide⟩

/-- C5 amended: the report's matched counter counts every emitted-hit
record — substring-fallback resolutions and exact resolutions
indistinguishably — and the unmatched counter counts everything else;
the concrete fuzzy fixture is such a hit.  The report accumulates only
these two counters plus the bounded unmatched sample. -/
theorem C5_amended_single_matched_counter (idx : String → Option Game)
    (stats : List Stat) :
    (runNormalize idx stats).2.matched
        = stats.countP (fun st => isHit (processStat idx st)) ∧
    (runNormalize idx stats).2.unmatched
        = stats.countP (fun st => !(isHit (processStat idx st))) ∧
    isHit (processStat (buildGameIndex [gFuzzyHome]) stRams) = true ∧
    resolveSide gFuzzyHome "Los Angeles Rams" = SideTier.fuzzyHome := by
  refine ⟨?_, ?_, by decide, by decide⟩
  · simpa [runNormalize] using
      runNorm_fold_matched idx stats ([], ⟨0, 0, []⟩)
  · simpa [runNormalize] using
      runNorm_fold_unmatched idx stats ([], ⟨0, 0, []⟩)

/-- C3: for all inputs, `spread_result` is null whenever any of
home score, away score or home-signed spread is missing, and otherwise
is COVERED / LOST / PUSH by the strict sign of
margin = (home_score − away_score) + home_signed_spread — the
specification formula `specSpreadResult` — and both importers compute
it with the identical formula. -/
theorem C3_spread_result_spec (hs as_ : Option Int) (sp : Option Rat) :
    calculate_spread_result hs as_ sp = specSpreadResult hs as_ sp ∧
    calculate_spread_result_spreadspoke hs as_ sp
      = calculate_spread_result hs as_ sp := by
  constructor
  · cases hs <;> cases as_ <;> cases sp <;> rfl
  · cases hs <;> cases as_ <;> cases sp <;> rfl

/-- C7: for postseason rows the week component of the join key is the
fixed ordinal-to-label mapping (18 WildCard, 19 Division, 20 ConfChamp,
21 SuperBowl, 22 SuperBowl); a postseason ordinal with no entry in the
mapping passes through as its raw numeric string; a non-postseason row
keys by the numeric week string; and the primary join key is built from
exactly this week string. -/
theorem C7_postseason_week_mapping :
    (weekStr (some "POST") 18 = "WildCard" ∧
     weekStr (some "POST") 19 = "Division" ∧
     weekStr (some "POST") 20 = "ConfChamp" ∧
     weekStr (some "POST") 21 = "SuperBowl" ∧
     weekStr (some "POST") 22 = "SuperBowl") ∧
    (∀ w : Nat, lookupPlayoffWeek w = none →
      weekStr (some "POST") w = natStr w) ∧
    (∀ (t : Option String) (w : Nat), t ≠ some "POST" →
      weekStr t w = natStr w) ∧
    (∀ (st : Stat) (tc : String),
      statPrimaryKey st tc
        = natStr (st.season.getD 0) ++ "-" ++
            weekStr st.season_type (st.week.getD 0) ++ "-" ++ tc) := by
  refine ⟨⟨rfl, rfl, rfl, rfl, rfl⟩, ?_, ?_, ?_⟩
  · intro w h
    simp [weekStr, h]
  · intro t w h
    simp [weekStr, h]
  · intro st tc
    rfl

/-- Witness for C7 at concrete inputs: ordinal 23 has no label and
passes through as "23"; a regular-season row keys numerically. -/
theorem C7_week_witness :
    lookupPlayoffWeek 23 = none ∧ weekStr (some "POST") 23 = "23" ∧
    (some "REG" : Option String) ≠ some "POST" ∧
    weekStr (some "REG") 7 = "7" := by
  refine ⟨by decide, C7_postseason_week_mapping.2.1 23 (by decide), by decide,
    C7_postseason_week_mapping.2.2.1 (some "REG") 7 (by decide)⟩

theorem enrichFrom_enriched (st : Stat) (tc : String) (oc : Option String)
    (g : Game) (b : Bool) : EnrichedFrom (enrichFrom st tc oc g b) g := by
  refine ⟨b, rfl, rfl, rfl, rfl, rfl, rfl, ?_, rfl, rfl, rfl, rfl, rfl, rfl,
    rfl, rfl, rfl, rfl, rfl, rfl⟩
  simp only [enrichFrom]
  cases hs : g.spread <;> simp [hs]

theorem nullEnriched_null (st : Stat) (tc : String) (oc : Option String) :
    NullEnrichedExceptPlayoff (nullEnriched st tc oc) := by
  simp [nullEnriched, NullEnrichedExceptPlayoff]

theorem emitted_cases (idx : String → Option Game) (st : Stat) (j : Joined)
    (h : emittedOf (processStat idx st) = some j) :
    (∃ (tc : String) (g : Game) (b : Bool),
      lookupAbbrev (st.team.getD "") = some tc ∧
      lookupGame idx st tc = some g ∧
      j = enrichFrom st tc (resolveOpp st.opponent_team) g b) ∨
    (∃ tc : String,
      lookupAbbrev (st.team.getD "") = some tc ∧
      j = nullEnriched st tc (resolveOpp st.opponent_team)) := by
  by_cases hg : (strFalsy st.player_id || natFalsy st.season ||
      st.week.isNone || strFalsy st.team) = true
  · rw [processStat, if_pos hg] at h
    simp [emittedOf] at h
  · rw [processStat, if_neg hg] at h
    cases hA : lookupAbbrev (st.team.getD "") with
    | none => rw [hA] at h; simp [emittedOf] at h
    | some tc =>
      simp only [hA] at h
      cases hG : lookupGame idx st tc with
      | none =>
        simp only [hG, emittedOf, Option.some.injEq] at h
        exact Or.inr ⟨tc, rfl, h.symm⟩
      | some g =>
        simp only [hG] at h
        cases hT : tierIsHome (resolveSide g tc) with
        | none =>
          simp only [hT, emittedOf, Option.some.injEq] at h
          exact Or.inr ⟨tc, rfl, h.symm⟩
        | some b =>
          simp only [hT, emittedOf, Option.some.injEq] at h
          exact Or.inl ⟨tc, g, b, rfl, hG, h.symm⟩

/-- C8 counterexample: an unmatched postseason record is emitted with
`isPlayoff = some true` — a non-null enrichment flag that is neither
drawn from a context record nor null, refuting "all explicitly null". -/
theorem C8_counterexample_isPlayoff_nonnull :
    processStat (fun _ => none) stPost
      = .miss (nullEnriched stPost "Kansas City Chiefs"
          (some "Buffalo Bills")) ∧
    (nullEnriched stPost "Kansas City Chiefs"
        (some "Buffalo Bills")).gameDate = none ∧
    (nullEnriched stPost "Kansas City Chiefs"
        (some "Buffalo Bills")).isPlayoff = some true := by
  refine ⟨by decide, by decide, by decide⟩

/-- C8 amended: every emitted record's game-context enrichment fields
are either all drawn from one single context record (at one consistent
home/away perspective) or all null except `isPlayoff`, which the
unmatched branch derives from the record's own season type; no record
mixes enrichment from two context records. -/
theorem C8_amended_single_source_enrichment
    (idx : String → Option Game) (st : Stat) (j : Joined)
    (h : emittedOf (processStat idx st) = some j) :
    (∃ g : Game, EnrichedFrom j g) ∨
    (NullEnrichedExceptPlayoff j ∧
      j.isPlayoff = some (st.season_type == some "POST")) := by
  rcases emitted_cases idx st j h with
    ⟨tc, g, b, _, _, hj⟩ | ⟨tc, _, hj⟩
  · exact Or.inl ⟨g, hj ▸ enrichFrom_enriched st tc _ g b⟩
  · refine Or.inr ⟨hj ▸ nullEnriched_null st tc _, ?_⟩
    rw [hj]
    rfl

/-- Witness for C8 at the concrete unmatched postseason fixture. -/
theorem C8_enrichment_witness :
    (∃ g : Game,
      EnrichedFrom
        (nullEnriched stPost "Kansas City Chiefs" (some "Buffalo Bills")) g) ∨
    (NullEnrichedExceptPlayoff
        (nullEnriched stPost "Kansas City Chiefs" (some "Buffalo Bills")) ∧
      (nullEnriched stPost "Kansas City Chiefs"
          (some "Buffalo Bills")).isPlayoff
        = some (stPost.season_type == some "POST")) :=
  C8_amended_single_source_enrichment (fun _ => none) stPost
    (nullEnriched stPost "Kansas City Chiefs" (some "Buffalo Bills"))
    (by decide)

/-- C9: an opponent abbreviation with no alias entry passes through
raw — `opponentCanonical` on every emitted record is the raw
abbreviation and the fallback key is built from it — while, in
asymmetry, a record whose own team abbreviation has no alias entry is
skipped (counted unmatched, not emitted). -/
theorem C9_opponent_raw_passthrough :
    (∀ o : String, lookupAbbrev o = none → resolveOpp (some o) = some o) ∧
    (∀ (st : Stat) (o : String), st.opponent_team = some o →
      lookupAbbrev o = none →
      statFallbackKey st
        = natStr (st.season.getD 0) ++ "-" ++
            weekStr st.season_type (st.week.getD 0) ++ "-" ++ o) ∧
    (∀ (idx : String → Option Game) (st : Stat) (j : Joined) (o : String),
      st.opponent_team = some o → lookupAbbrev o = none →
      emittedOf (processStat idx st) = some j →
      j.opponentCanonical = some o) ∧
    (∀ (idx : String → Option Game) (st : Stat) (t : String),
      st.team = some t → t ≠ "" → lookupAbbrev t = none →
      strFalsy st.player_id = false → natFalsy st.season = false →
      st.week.isNone = false →
      processStat idx st = .skip) := by
  have hOpp : ∀ o : String, lookupAbbrev o = none →
      resolveOpp (some o) = some o := by
    intro o h
    simp [resolveOpp, h]
  refine ⟨hOpp, ?_, ?_, ?_⟩
  · intro st o h1 h2
    simp [statFallbackKey, fallbackKey, h1, hOpp o h2, pyShow]
  · intro idx st j o h1 h2 h
    rcases emitted_cases idx st j h with
      ⟨tc, g, b, _, _, hj⟩ | ⟨tc, _, hj⟩ <;>
      simp [hj, enrichFrom, nullEnriched, h1, hOpp o h2]
  · intro idx st t h1 h2 h3 h4 h5 h6
    have hteam : strFalsy st.team = false := by
      rw [h1]
      simp [strFalsy, h2]
    have hguard : (strFalsy st.player_id || natFalsy st.season ||
        st.week.isNone || strFalsy st.team) = false := by
      simp [h4, h5, h6, hteam]
    rw [processStat, if_neg (by simp [hguard])]
    have : lookupAbbrev (st.team.getD "") = none := by
      rw [h1]
      exact h3
    rw [this]

/-- Witness for C9 at concrete inputs: unknown opponent "ZZZ" passes
through raw into the emitted record and fallback key; unknown own team
"XXX" causes a skip. -/
theorem C9_opponent_witness :
    resolveOpp (some "ZZZ") = some "ZZZ" ∧
    statFallbackKey stUnknownOpp = "2020-4-ZZZ" ∧
    (nullEnriched stUnknownOpp "Kansas City Chiefs"
        (some "ZZZ")).opponentCanonical = some "ZZZ" ∧
    processStat (fun _ => none) stUnknownTeam = .skip := by
  refine ⟨C9_opponent_raw_passthrough.1 "ZZZ" (by decide), ?_,
    C9_opponent_raw_passthrough.2.2.1 (fun _ => none) stUnknownOpp
      (nullEnriched stUnknownOpp "Kansas City Chiefs" (some "ZZZ")) "ZZZ"
      (by decide) (by decide) (by decide),
    C9_opponent_raw_passthrough.2.2.2 (fun _ => none) stUnknownTeam "XXX"
      (by decide) (by decide) (by decide) (by decide) (by decide) (by decide)⟩
  have h := C9_opponent_raw_passthrough.2.1 stUnknownOpp "ZZZ"
    (by decide) (by decide)
  rw [h]
  rfl

/-- C10: a Spreadspoke row whose (stripped) favorite id is "PICK" or
empty yields a home-perspective spread of exactly 0, regardless of the
magnitude carried in `spread_favorite`. -/
theorem C10_pick_zero_spread (r : SSRow) (hc d : String)
    (hHome : lookupNameToCanonical r.team_home = some hc)
    (hDate : convertDate r.schedule_date = some d)
    (hPick : pyStrip r.team_favorite_id = "PICK" ∨ pyStrip r.team_favorite_id = "") :
    spreadspokeRowEntry r = some ((d, hc), ⟨0, r.over_under_line⟩) := by
  rcases hPick with h | h <;> simp [spreadspokeRowEntry, hHome, hDate, h]

/-- Witness for C10: the pick-em fixture row, which carries magnitude
−7, still derives spread 0. -/
theorem C10_pick_witness :
    spreadspokeRowEntry rPick
      = some (("1990-09-09", "Miami Dolphins"), ⟨0, some 38⟩) ∧
    rPick.spread_favorite = -7 :=
  ⟨C10_pick_zero_spread rPick "Miami Dolphins" "1990-09-09" (by decide)
    (by decide) (Or.inl (by decide)), by decide⟩

/-- C2: code bug — the fill loops gate only on the `spread` field, so a
game whose `spread` is null but whose `overUnder` and `ouResult` are
already present has both overwritten on an index hit, in both
importers, contradicting the only-fill policy (and the scripts' own
docstrings).  Evaluated at the concrete failing input. -/
theorem C2_overwrite_bug :
    gPartial.spread = none ∧ gPartial.overUnder = some 50 ∧
    gPartial.ouResult = some "UNDER" ∧
    (spreadspokeFillStep (spreadspokeIndex [rHomeFav]) gPartial).2
      = .filled ∧
    (spreadspokeFillStep (spreadspokeIndex [rHomeFav]) gPartial).1.overUnder
      = some 40 ∧
    (spreadspokeFillStep (spreadspokeIndex [rHomeFav]) gPartial).1.ouResult
      = some "OVER" ∧
    gPartialNV.overUnder = some 50 ∧ gPartialNV.ouResult = some "UNDER" ∧
    (nflverseFillStep (nflverseIndex [rSched]) gPartialNV).1.overUnder
      = some 40 ∧
    (nflverseFillStep (nflverseIndex [rSched]) gPartialNV).1.ouResult
      = some "OVER" := by
  have hss : (spreadspokeFillStep (spreadspokeIndex [rHomeFav])
        gPartial).1.ouResult
      = calculate_ou_result_spreadspoke (some 24) (some 20) (some 40) := rfl
  have hnv : (nflverseFillStep (nflverseIndex [rSched]) gPartialNV).1.ouResult
      = calculate_ou_result (some 24) (some 20) (some 40) := rfl
  refine ⟨by decide, by decide, by decide, by decide, by decide, ?_,
    by decide, by decide, by decide, ?_⟩
  · rw [hss]
    norm_num [calculate_ou_result_spreadspoke]
  · rw [hnv]
    norm_num [calculate_ou_result]

/-- C4 counterexample: a favorite id resolving to neither franchise of
the game is NOT surfaced — the Spreadspoke row is silently dropped: it
contributes no index entry, and the whole run (output games and every
counter) is identical to a run without the row; no diagnostic of any
kind distinguishes them. -/
theorem C4_counterexample_silent_skip :
    spreadspokeRowEntry rAmbiguous = none ∧
    runSpreadspoke [rAmbiguous] [gUnfilled] = runSpreadspoke [] [gUnfilled] ∧
    (runSpreadspoke [rAmbiguous] [gUnfilled]).1 = [gUnfilled] ∧
    (runSpreadspoke [rAmbiguous] [gUnfilled]).2
      = { filled := 0, notFound := 1, alreadyHas := 0, bySeason := [] } := by
  refine ⟨by decide, by decide, by decide, by decide⟩

/-- C4 amended: when the favorite id of a favorite-plus-magnitude line
resolves to neither the home nor the away franchise (modern or
historical name), the row is silently skipped: it contributes no index
entry and the merge run is exactly as if the row were absent, so the
game record proceeds unenriched for betting fields; nothing is
surfaced or counted. -/
theorem C4_amended_ambiguous_skipped (r : SSRow) (hc fc d : String)
    (hHome : lookupNameToCanonical r.team_home = some hc)
    (hDate : convertDate r.schedule_date = some d)
    (hNotPick : pyStrip r.team_favorite_id ≠ "PICK")
    (hNotEmpty : pyStrip r.team_favorite_id ≠ "")
    (hFav : lookupSpreadspokeAbbrev (pyStrip r.team_favorite_id) = some fc)
    (hNotHome : fc ≠ hc)
    (hNotAway : fc ≠ (lookupNameToCanonical r.team_away).getD r.team_away) :
    spreadspokeRowEntry r = none ∧
    ∀ (rows : List SSRow) (games : List Game),
      runSpreadspoke (r :: rows) games = runSpreadspoke rows games := by
  have hEntry : spreadspokeRowEntry r = none := by
    cases hA : lookupNameToCanonical r.team_away with
    | none =>
      have h5 : fc ≠ r.team_away := by simpa [hA] using hNotAway
      simp [spreadspokeRowEntry, hHome, hDate, hFav, hNotPick, hNotEmpty,
        hNotHome, hA, h5]
    | some ac =>
      have h5 : fc ≠ ac := by simpa [hA] using hNotAway
      simp [spreadspokeRowEntry, hHome, hDate, hFav, hNotPick, hNotEmpty,
        hNotHome, hA, h5]
  refine ⟨hEntry, ?_⟩
  intro rows games
  have hidx : spreadspokeIndexEntries (r :: rows)
      = spreadspokeIndexEntries rows := by
    simp [spreadspokeIndexEntries, List.foldl_cons, hEntry]
  have hIdxFun : spreadspokeIndex (r :: rows) = spreadspokeIndex rows := by
    funext k
    simp [spreadspokeIndex, hidx]
  simp [runSpreadspoke, hIdxFun]

/-- Witness for C4 at the concrete ambiguous fixture row. -/
theorem C4_ambiguous_witness :
    spreadspokeRowEntry rAmbiguous = none ∧
    runSpreadspoke [rAmbiguous] [gUnfilled]
      = runSpreadspoke [] [gUnfilled] := by
  have h := C4_amended_ambiguous_skipped rAmbiguous "Miami Dolphins"
    "Dallas Cowboys" "1995-01-15" (by decide) (by decide) (by decide)
    (by decide) (by decide) (by decide) (by decide)
  exact ⟨h.1, h.2 [] [gUnfilled]⟩

/-- C6 counterexample: a line naming the home franchise as favorite
with magnitude 0 converts to home-perspective spread 0, from whose sign
the original favorite identity cannot be recovered (it reads as a
pick), refuting the round trip at zero magnitude. -/
theorem C6_counterexample_zero_magnitude :
    lookupSpreadspokeAbbrev (pyStrip rZeroFav.team_favorite_id)
      = some "Miami Dolphins" ∧
    lookupNameToCanonical rZeroFav.team_home = some "Miami Dolphins" ∧
    spreadspokeRowEntry rZeroFav
      = some (("1985-11-03", "Miami Dolphins"), ⟨0, none⟩) ∧
    specFavoredFromSign 0 ≠ FavSide.home := by
  refine ⟨by decide, by decide, by decide, by decide⟩

/-- C6 amended: for a favorite-plus-magnitude line with a strictly
negative magnitude, converting to a home-perspective signed spread
(home favorite: negate; away favorite: pass through) and recomputing
who is favored from the sign reproduces the original favorite side;
a pick/even line converts to 0, whose sign reads back as a pick.  (At
magnitude exactly 0 with a named favorite the round trip fails — see
the counterexample.) -/
theorem C6_amended_roundtrip :
    (∀ (r : SSRow) (hc d fc : String),
      lookupNameToCanonical r.team_home = some hc →
      convertDate r.schedule_date = some d →
      pyStrip r.team_favorite_id ≠ "PICK" →
      pyStrip r.team_favorite_id ≠ "" →
      lookupSpreadspokeAbbrev (pyStrip r.team_favorite_id) = some fc →
      fc = hc → r.spread_favorite < 0 →
      spreadspokeRowEntry r
        = some ((d, hc), ⟨-r.spread_favorite, r.over_under_line⟩) ∧
      specFavoredFromSign (-r.spread_favorite) = FavSide.home) ∧
    (∀ (r : SSRow) (hc d fc ac : String),
      lookupNameToCanonical r.team_home = some hc →
      convertDate r.schedule_date = some d →
      pyStrip r.team_favorite_id ≠ "PICK" →
      pyStrip r.team_favorite_id ≠ "" →
      lookupSpreadspokeAbbrev (pyStrip r.team_favorite_id) = some fc →
      fc ≠ hc → lookupNameToCanonical r.team_away = some ac → fc = ac →
      r.spread_favorite < 0 →
      spreadspokeRowEntry r
        = some ((d, hc), ⟨r.spread_favorite, r.over_under_line⟩) ∧
      specFavoredFromSign r.spread_favorite = FavSide.away) ∧
    (∀ (r : SSRow) (hc d : String),
      lookupNameToCanonical r.team_home = some hc →
      convertDate r.schedule_date = some d →
      (pyStrip r.team_favorite_id = "PICK" ∨
        pyStrip r.team_favorite_id = "") →
      spreadspokeRowEntry r = some ((d, hc), ⟨0, r.over_under_line⟩) ∧
      specFavoredFromSign 0 = FavSide.pick) := by
  refine ⟨?_, ?_, ?_⟩
  · intro r hc d fc hHome hDate hNotPick hNotEmpty hFav hfc hneg
    subst hfc
    constructor
    · simp [spreadspokeRowEntry, hHome, hDate, hFav, hNotPick, hNotEmpty]
    · have hpos : (0 : Rat) < -r.spread_favorite := neg_pos.mpr hneg
      simp [specFavoredFromSign, hpos]
  · intro r hc d fc ac hHome hDate hNotPick hNotEmpty hFav hNotHome hA hfc
      hneg
    subst hfc
    constructor
    · simp [spreadspokeRowEntry, hHome, hDate, hFav, hNotPick, hNotEmpty,
        hNotHome, hA]
    · have hnpos : ¬ (0 : Rat) < r.spread_favorite := not_lt.mpr hneg.le
      simp [specFavoredFromSign, hnpos, hneg]
  · intro r hc d hHome hDate hPick
    constructor
    · rcases hPick with h | h <;>
        simp [spreadspokeRowEntry, hHome, hDate, h]
    · rfl

/-- Witness for C6 at the concrete home-favored fixture row (favorite
"MIA" = home, magnitude −3): the converted spread is +3 and its sign
recomputes the home side. -/
theorem C6_roundtrip_witness :
    spreadspokeRowEntry rHomeFav
      = some (("1980-10-12", "Miami Dolphins"),
          ⟨-rHomeFav.spread_favorite, rHomeFav.over_under_line⟩) ∧
    specFavoredFromSign (-rHomeFav.spread_favorite) = FavSide.home :=
  C6_amended_roundtrip.1 rHomeFav "Miami Dolphins" "1980-10-12"
    "Miami Dolphins" (by decide) (by decide) (by decide) (by decide)
    (by decide) rfl (by decide)

end Rebuild
